import Mathlib

/-!
Verification of the 3D-MIL-QSAR repository (file `example.ipynb`).

The repository consists of a single Jupyter notebook of straight-line glue
code: it creates a folder, calls the external descriptor generator
`calc_3d_pmapper` (miqsar), splits the data with sklearn's
`train_test_split`, scales it with miqsar's `scale_descriptors`, fits
pre-built miqsar estimators and prints `r2_score` metrics.

The development embeds the notebook at two levels:

* a dynamic level: the sequence of externally visible operations the
  notebook performs, as a trace of `Event`s over symbolic data references
  (`DataRef`), produced by `runNotebook` from an initial file-system state;
* a syntactic level: the notebook's code cells as a Python statement list
  (`PyStmt` / `PyExpr`), used for claims about the shape of the code
  (no function definitions, no loops, every operation a library call).

The external library functions themselves (descriptor calculation, neural
network training) live outside this repository; the trace records the calls
made to them and the provenance of the data passed around, which is all the
notebook itself determines.  sklearn's `train_test_split` is additionally
modelled (from its documented behaviour) to settle the claims about the
invariants of the split.
-/

/-- Symbolic references to the Python values flowing through the notebook.
`run` is `0` for the 100-conformation pipeline and `1` for the
single-conformation pipeline; `est` numbers the estimator instances in
order of creation. -/
inductive DataRef where
  | bags (run : Nat)
  | labels (run : Nat)
  | molid (run : Nat)
  | xTrainRaw (run : Nat)
  | xTestRaw (run : Nat)
  | yTrain (run : Nat)
  | yTest (run : Nat)
  | molidTrain (run : Nat)
  | molidTest (run : Nat)
  | xTrain (run : Nat)
  | xTest (run : Nat)
  | preds (est : Nat)
deriving DecidableEq

/-- Is the reference one of the raw (unscaled) bag values returned by
`calc_3d_pmapper` or passed through `train_test_split` without scaling? -/
def DataRef.isUnscaledBags : DataRef → Bool
  | .bags _ => true
  | .xTrainRaw _ => true
  | .xTestRaw _ => true
  | _ => false

/-- Is the reference part of the training side of a split? -/
def DataRef.isTrainSide : DataRef → Bool
  | .xTrainRaw _ => true
  | .yTrain _ => true
  | .molidTrain _ => true
  | .xTrain _ => true
  | _ => false

/-- The externally visible operations performed by the notebook, in the
order they execute.  `fit` hyperparameter keyword arguments (`n_epoch`,
`batch_size`, `weight_decay`, `lr`, `instance_dropout`) are scalar
constants that do not affect any data-flow claim and are elided. -/
inductive Event where
  | mkdir (dir : String)
  | calcDescriptors (file : String) (nconfs : Nat) (stereo : Bool)
      (path : String) (ncpu : Nat) (run : Nat)
  | trainTestSplit (run : Nat) (xs ys ids : DataRef) (randomState : Nat)
  | scaleDescriptors (run : Nat) (xtr xte : DataRef)
  | instantiate (est : Nat) (cls : String)
  | fit (est : Nat) (x y : DataRef)
  | predict (est : Nat) (x out : DataRef)
  | getInstanceWeights (est : Nat) (x : DataRef)
  | printLine (s : String)
  | printMetric (label : String) (metric : String) (yTrue yPred : DataRef)
      (decimals : Nat)
  | plotBar
deriving DecidableEq

/-- The Python exception the notebook can raise itself (from `os.mkdir`). -/
inductive PyError where
  | fileExistsError (path : String)
deriving DecidableEq

/-- The dataset chosen in the first code cell. -/
def datasetFile : String := "datasets/CHEMBL1075104.smi"

/-- The folder created by `os.mkdir` and passed to `calc_3d_pmapper`. -/
def descriptorsFolder : String := "descriptors"

/-- Number of conformations requested in the first pipeline. -/
def nconfs : Nat := 100

/-- Number of CPUs passed to `calc_3d_pmapper`. -/
def ncpu : Nat := 10

/-- Trace of the 100-conformation pipeline: first code cell (mkdir,
descriptor calculation, print), split/scale cell, Instance-Wrapper
training cell and Bag-AttentionNet training cell, then the attention
weight plotting cell. -/
def multiConfTrace : List Event :=
  [ Event.mkdir descriptorsFolder,
    Event.calcDescriptors datasetFile nconfs false descriptorsFolder ncpu 0,
    Event.printLine "There are ... molecules encoded with ... pmapper descriptors",
    Event.trainTestSplit 0 (.bags 0) (.labels 0) (.molid 0) 42,
    Event.scaleDescriptors 0 (.xTrainRaw 0) (.xTestRaw 0),
    Event.instantiate 0 "InstanceWrapperMLPRegressor",
    Event.fit 0 (.xTrain 0) (.yTrain 0),
    Event.predict 0 (.xTest 0) (.preds 0),
    Event.printMetric "3D/MI/Instance-Wrapper" "r2_score" (.yTest 0) (.preds 0) 2,
    Event.instantiate 1 "AttentionNetRegressor",
    Event.fit 1 (.xTrain 0) (.yTrain 0),
    Event.predict 1 (.xTest 0) (.preds 1),
    Event.printMetric "3D/MI/Bag-AttentionNet" "r2_score" (.yTest 0) (.preds 1) 2,
    Event.getInstanceWeights 1 (.xTest 0),
    Event.plotBar ]

/-- Trace of the single-conformation pipeline (last code cell): descriptor
calculation with `nconfs=1`, print, split, scale, Instance-Wrapper
training and metric print. -/
def singleConfTrace : List Event :=
  [ Event.calcDescriptors datasetFile 1 false descriptorsFolder ncpu 1,
    Event.printLine "There are ... molecules encoded with ... pmapper descriptors",
    Event.trainTestSplit 1 (.bags 1) (.labels 1) (.molid 1) 42,
    Event.scaleDescriptors 1 (.xTrainRaw 1) (.xTestRaw 1),
    Event.instantiate 2 "InstanceWrapperMLPRegressor",
    Event.fit 2 (.xTrain 1) (.yTrain 1),
    Event.predict 2 (.xTest 1) (.preds 2),
    Event.printMetric "3D/SI/Net" "r2_score" (.yTest 1) (.preds 2) 2 ]

/-- The full trace of a run in which `os.mkdir` succeeds. -/
def cleanTrace : List Event := multiConfTrace ++ singleConfTrace

/-- Running the notebook top to bottom from a file-system state `fs`
(the set of entries in the working directory).  The only fallible
operation the notebook performs itself is `os.mkdir(descriptors_folder)`
in the first code cell: when the folder already exists Python raises
`FileExistsError` there, execution of the cell stops before
`calc_3d_pmapper`, and no further modelled effect is performed.
Otherwise the straight-line code runs to the end. -/
def runNotebook (fs : List String) : List Event × Option PyError :=
  if descriptorsFolder ∈ fs then
    ([], some (PyError.fileExistsError descriptorsFolder))
  else
    (cleanTrace, none)

/-- Check that the predicates in `ps` are matched, in order, by some
subsequence of the trace. -/
def matchesInOrder : List Event → List (Event → Bool) → Bool
  | _, [] => true
  | [], _ :: _ => false
  | e :: es, p :: ps =>
    if p e then matchesInOrder es ps else matchesInOrder es (p :: ps)

example : (runNotebook []).2 = none := by decide
example : (runNotebook [descriptorsFolder]).1 = [] := by decide
example : matchesInOrder cleanTrace
    [fun e => e == Event.mkdir descriptorsFolder,
     fun e => e == Event.plotBar] = true := by decide

/-! ## Syntactic embedding of the notebook code cells

Python expressions are transcribed as they appear in the notebook.
Keyword arguments are wrapped in the `kw` marker inside the argument
list; literal constants are carried as strings (their contents never
influence a claim; the dictionary literal passed to `sns.set` is
abbreviated).  `strFormat` stands for a `.format(...)` call on a string
literal, with the template carried verbatim. -/

/-- Python expressions occurring in the notebook. -/
inductive PyExpr where
  | lit (s : String)
  | name (x : String)
  | kw (key : String) (value : PyExpr)
  | call (callee : String) (args : List PyExpr)
  | methodCall (obj : String) (method : String) (args : List PyExpr)
  | subscript (obj : PyExpr) (index : PyExpr)
  | attr (obj : PyExpr) (field : String)
  | tuple (elems : List PyExpr)
  | fstring (embedded : List PyExpr)
  | strFormat (template : String) (args : List PyExpr)

/-- Python statements.  The notebook contains no function or class
definitions and no control flow, so those constructors carry no body:
they are present so that their absence is a checkable property of the
transcription. -/
inductive PyStmt where
  | importModule (modName : String) (asName : String)
  | fromImport (modName : String) (names : List String)
  | assign (targets : List String) (rhs : PyExpr)
  | exprStmt (e : PyExpr)
  | funcDef (defName : String)
  | classDef (clsName : String)
  | forLoop
  | whileLoop
  | ifStmt

/-- Immediate subexpressions of an expression. -/
def subExprs : PyExpr → List PyExpr
  | .kw _ v => [v]
  | .call _ args => args
  | .methodCall _ _ args => args
  | .subscript o i => [o, i]
  | .attr o _ => [o]
  | .tuple es => es
  | .fstring es => es
  | .strFormat _ args => args
  | _ => []

/-- Fuel-bounded check that `p` holds of an expression and all its
subexpressions; returns `false` when the fuel runs out, so a `true`
answer guarantees the property on the whole tree. -/
def exprAllF (p : PyExpr → Bool) : Nat → PyExpr → Bool
  | 0, _ => false
  | fuel + 1, e => p e && (subExprs e).all (exprAllF p fuel)

/-- The notebook expressions nest at most a handful of levels deep. -/
def exprDepthBound : Nat := 32

/-- Does `p` hold of the expression and every subexpression? -/
def exprAll (p : PyExpr → Bool) (e : PyExpr) : Bool :=
  exprAllF p exprDepthBound e

/-- Top-level expressions of a statement. -/
def stmtExprs : PyStmt → List PyExpr
  | .assign _ rhs => [rhs]
  | .exprStmt e => [e]
  | _ => []

/-- Does `p` hold of every (sub)expression of the statement? -/
def stmtAll (p : PyExpr → Bool) (s : PyStmt) : Bool :=
  (stmtExprs s).all (exprAll p)

/-- A statement that is neither a definition nor control flow. -/
def isStraightLine : PyStmt → Bool
  | .funcDef _ => false
  | .classDef _ => false
  | .forLoop => false
  | .whileLoop => false
  | .ifStmt => false
  | _ => true

/-- Does the statement define a function or a class? -/
def definesFunctionOrClass : PyStmt → Bool
  | .funcDef _ => true
  | .classDef _ => true
  | _ => false

/-- The names bound by `from ... import ...` statements. -/
def importedNames (stmts : List PyStmt) : List String :=
  stmts.foldr
    (fun s acc =>
      match s with
      | .fromImport _ ns => ns ++ acc
      | _ => acc) []

/-- The modules named in `from ... import ...` statements. -/
def importedModules (stmts : List PyStmt) : List String :=
  stmts.foldr
    (fun s acc =>
      match s with
      | .fromImport m _ => m :: acc
      | _ => acc) []

/-- First code cell: imports, constants, folder creation, descriptor
calculation for up to 100 conformations, and the informational print. -/
def descriptorCell : List PyStmt :=
  [ .importModule "os" "os",
    .fromImport "miqsar.utils" ["calc_3d_pmapper"],
    .assign ["nconfs"] (.lit "100"),
    .assign ["ncpu"] (.lit "10"),
    .assign ["dataset_file"] (.lit "datasets/CHEMBL1075104.smi"),
    .assign ["descriptors_folder"] (.methodCall "os.path" "join" [.lit "descriptors"]),
    .exprStmt (.methodCall "os" "mkdir" [.name "descriptors_folder"]),
    .assign ["bags", "labels", "molid"]
      (.call "calc_3d_pmapper"
        [.name "dataset_file", .kw "nconfs" (.name "nconfs"),
         .kw "stereo" (.lit "False"), .kw "path" (.name "descriptors_folder"),
         .kw "ncpu" (.name "ncpu")]),
    .exprStmt (.call "print"
      [.fstring
        [.call "len" [.name "bags"],
         .subscript (.attr (.subscript (.name "bags") (.lit "0")) "shape") (.lit "1")]]) ]

/-- Second code cell: train/test split and descriptor scaling. -/
def splitScaleCell : List PyStmt :=
  [ .fromImport "sklearn.model_selection" ["train_test_split"],
    .fromImport "miqsar.utils" ["scale_descriptors"],
    .assign ["x_train", "x_test", "y_train", "y_test", "molid_train", "molid_test"]
      (.call "train_test_split"
        [.name "bags", .name "labels", .name "molid", .kw "random_state" (.lit "42")]),
    .assign ["x_train", "x_test"]
      (.call "scale_descriptors" [.name "x_train", .name "x_test"]) ]

/-- Third code cell: estimator imports and hyperparameter constants. -/
def hyperparameterCell : List PyStmt :=
  [ .fromImport "miqsar.estimators.wrappers"
      ["BagWrapperMLPRegressor", "InstanceWrapperMLPRegressor"],
    .fromImport "miqsar.estimators.attention_nets" ["AttentionNetRegressor"],
    .fromImport "miqsar.estimators.mi_nets" ["BagNetRegressor", "InstanceNetRegressor"],
    .fromImport "sklearn.metrics" ["r2_score"],
    .assign ["n_epoch"] (.lit "500"),
    .assign ["batch_size"] (.lit "128"),
    .assign ["lr"] (.lit "0.001"),
    .assign ["weight_decay"] (.lit "0.01"),
    .assign ["seed"] (.lit "42"),
    .assign ["init_cuda"] (.lit "False") ]

/-- The tuple `(x_train[0].shape[-1], 256, 128, 64)` used for `ndim`. -/
def ndimTuple : PyExpr :=
  .tuple
    [.subscript (.attr (.subscript (.name "x_train") (.lit "0")) "shape") (.lit "-1"),
     .lit "256", .lit "128", .lit "64"]

/-- Fourth code cell: Instance-Wrapper network training and evaluation. -/
def instanceWrapperCell : List PyStmt :=
  [ .assign ["ndim"] ndimTuple,
    .assign ["ins_net"]
      (.call "InstanceWrapperMLPRegressor"
        [.kw "ndim" (.name "ndim"), .kw "init_cuda" (.name "init_cuda")]),
    .exprStmt (.methodCall "ins_net" "fit"
      [.name "x_train", .name "y_train", .kw "n_epoch" (.name "n_epoch"),
       .kw "batch_size" (.name "batch_size"),
       .kw "weight_decay" (.name "weight_decay"), .kw "lr" (.name "lr")]),
    .assign ["predictions"] (.methodCall "ins_net" "predict" [.name "x_test"]),
    .exprStmt (.call "print"
      [.strFormat "3D/MI/Instance-Wrapper: r2_score test = \x7b:.2f\x7d"
        [.call "r2_score" [.name "y_test", .name "predictions"]]]) ]

/-- Fifth code cell: Bag-AttentionNet training and evaluation. -/
def attentionNetCell : List PyStmt :=
  [ .assign ["ndim"] ndimTuple,
    .assign ["det_ndim"] (.tuple [.lit "64"]),
    .assign ["instance_dropout"] (.lit "0.95"),
    .assign ["att_net"]
      (.call "AttentionNetRegressor"
        [.kw "ndim" (.name "ndim"), .kw "det_ndim" (.name "det_ndim"),
         .kw "init_cuda" (.name "init_cuda")]),
    .exprStmt (.methodCall "att_net" "fit"
      [.name "x_train", .name "y_train", .kw "n_epoch" (.name "n_epoch"),
       .kw "instance_dropout" (.name "instance_dropout"),
       .kw "batch_size" (.name "batch_size"),
       .kw "weight_decay" (.name "weight_decay"), .kw "lr" (.name "lr")]),
    .assign ["predictions"] (.methodCall "att_net" "predict" [.name "x_test"]),
    .exprStmt (.call "print"
      [.strFormat "3D/MI/Bag-AttentionNet: r2_score test = \x7b:.2f\x7d"
        [.call "r2_score" [.name "y_test", .name "predictions"]]]) ]

/-- Sixth code cell: attention-weight extraction and bar plot. -/
def plottingCell : List PyStmt :=
  [ .importModule "seaborn" "sns",
    .assign ["instance_weights"]
      (.methodCall "att_net" "get_instance_weights" [.name "x_test"]),
    .assign ["n"] (.lit "2"),
    .exprStmt (.methodCall "sns" "set" [.kw "rc" (.lit "dict figure.figsize (25, 8)")]),
    .assign ["x"]
      (.call "list" [.call "range" [.call "len"
        [.subscript (.name "instance_weights") (.name "n")]]]),
    .assign ["y"] (.subscript (.name "instance_weights") (.name "n")),
    .assign ["plot"]
      (.methodCall "sns" "barplot" [.kw "x" (.name "x"), .kw "y" (.name "y")]),
    .exprStmt (.methodCall "plot" "set"
      [.kw "xlabel" (.lit "Conformation index"), .kw "ylabel" (.lit "Attention weight")]) ]

/-- Seventh code cell: single-conformation pipeline (descriptors with
`nconfs=1`, split, scale, Single-Instance network, evaluation). -/
def singleInstanceCell : List PyStmt :=
  [ .assign ["bags", "labels", "molid"]
      (.call "calc_3d_pmapper"
        [.name "dataset_file", .kw "nconfs" (.lit "1"),
         .kw "stereo" (.lit "False"), .kw "path" (.name "descriptors_folder"),
         .kw "ncpu" (.name "ncpu")]),
    .exprStmt (.call "print"
      [.fstring
        [.call "len" [.name "bags"],
         .subscript (.attr (.subscript (.name "bags") (.lit "0")) "shape") (.lit "1")]]),
    .assign ["x_train", "x_test", "y_train", "y_test", "molid_train", "molid_test"]
      (.call "train_test_split"
        [.name "bags", .name "labels", .name "molid", .kw "random_state" (.lit "42")]),
    .assign ["x_train", "x_test"]
      (.call "scale_descriptors" [.name "x_train", .name "x_test"]),
    .assign ["ndim"] ndimTuple,
    .assign ["ins_net"]
      (.call "InstanceWrapperMLPRegressor"
        [.kw "ndim" (.name "ndim"), .kw "init_cuda" (.name "init_cuda")]),
    .exprStmt (.methodCall "ins_net" "fit"
      [.name "x_train", .name "y_train", .kw "n_epoch" (.name "n_epoch"),
       .kw "batch_size" (.name "batch_size"),
       .kw "weight_decay" (.name "weight_decay"), .kw "lr" (.name "lr")]),
    .assign ["predictions"] (.methodCall "ins_net" "predict" [.name "x_test"]),
    .exprStmt (.call "print"
      [.strFormat "3D/SI/Net: r2_score test = \x7b:.2f\x7d"
        [.call "r2_score" [.name "y_test", .name "predictions"]]]) ]

/-- All statements of the notebook code cells, in order (the two trailing
empty cells contain no statements). -/
def notebookStatements : List PyStmt :=
  descriptorCell ++ splitScaleCell ++ hyperparameterCell ++
    instanceWrapperCell ++ attentionNetCell ++ plottingCell ++ singleInstanceCell

example : notebookStatements.all isStraightLine = true := by decide
example : (importedNames notebookStatements).contains "calc_3d_pmapper" = true := by decide

/-! ## Model of the train/test split -/

/-- Number of rows reserved for the test set by the default
`test_size=0.25`: the ceiling of a quarter of the row count. -/
def nTestOf (n : Nat) : Nat := (n + 3) / 4

/-- The permuted indices reserved for the test set (the first
`nTestOf n` entries of the drawn permutation). -/
def splitTestIdx (rng : Nat → Nat → List Nat) (randomState n : Nat) : List Nat :=
  (rng randomState n).take (nTestOf n)

/-- The permuted indices reserved for the training set (the remaining
entries of the drawn permutation). -/
def splitTrainIdx (rng : Nat → Nat → List Nat) (randomState n : Nat) : List Nat :=
  (rng randomState n).drop (nTestOf n)

/-- Select the rows of `xs` named by `idx` (out-of-range indices give the
default `d`; they never occur when `idx` draws from a permutation of the
row indices). -/
def applyIdx {α : Type} (idx : List Nat) (xs : List α) (d : α) : List α :=
  idx.map fun j => xs.getD j d

/-- The six sequences returned by a split call, in sklearn's result
order for three input arrays. -/
structure SplitResult (α β γ : Type) where
  xTrain : List α
  xTest : List α
  yTrain : List β
  yTest : List β
  idTrain : List γ
  idTest : List γ

/-- Modelled from the spec: `sklearn.model_selection.train_test_split` is
external library code, not contained in this repository; the notebook
calls it as `train_test_split(bags, labels, molid, random_state=42)`.
With these arguments sklearn draws a permutation of the `n` row indices
from a pseudo-random generator seeded with `random_state`, reserves the
first `ceil(n/4)` permuted indices for the test rows and the rest for the
training rows, and applies the same index selection to every array
passed in.  The generator is abstracted here as a function `rng` of the
seed and the row count; `da`, `db`, `dc` are the defaults `applyIdx`
falls back to on an out-of-range index. -/
def train_test_split {α β γ : Type} (rng : Nat → Nat → List Nat)
    (randomState : Nat) (bags : List α) (labels : List β) (molid : List γ)
    (da : α) (db : β) (dc : γ) : SplitResult α β γ :=
  let n := bags.length
  ⟨applyIdx (splitTrainIdx rng randomState n) bags da,
   applyIdx (splitTestIdx rng randomState n) bags da,
   applyIdx (splitTrainIdx rng randomState n) labels db,
   applyIdx (splitTestIdx rng randomState n) labels db,
   applyIdx (splitTrainIdx rng randomState n) molid dc,
   applyIdx (splitTestIdx rng randomState n) molid dc⟩

theorem nTestOf_le (n : Nat) : nTestOf n ≤ n := by
  unfold nTestOf
  omega

theorem applyIdx_length {α : Type} (idx : List Nat) (xs : List α) (d : α) :
    (applyIdx idx xs d).length = idx.length := by
  simp [applyIdx]

theorem applyIdx_getD {α : Type} (idx : List Nat) (xs : List α) (d : α)
    (k : Nat) (hk : k < idx.length) :
    (applyIdx idx xs d).getD k d = xs.getD (idx.getD k 0) d := by
  unfold applyIdx
  rw [List.getD_eq_getElem _ _ (by simpa using hk), List.getElem_map,
    List.getD_eq_getElem _ _ hk]

theorem splitTrainIdx_mem_lt (rng : Nat → Nat → List Nat) (randomState n : Nat)
    (hp : (rng randomState n).Perm (List.range n)) (j : Nat)
    (hj : j ∈ splitTrainIdx rng randomState n) : j < n := by
  have h1 : j ∈ rng randomState n := List.mem_of_mem_drop hj
  exact List.mem_range.mp (hp.mem_iff.mp h1)

theorem splitTestIdx_mem_lt (rng : Nat → Nat → List Nat) (randomState n : Nat)
    (hp : (rng randomState n).Perm (List.range n)) (j : Nat)
    (hj : j ∈ splitTestIdx rng randomState n) : j < n := by
  have h1 : j ∈ rng randomState n := List.take_subset _ _ hj
  exact List.mem_range.mp (hp.mem_iff.mp h1)

example :
    (train_test_split (fun _ n => List.range n) 42
      [10, 20, 30, 40] [5, 6, 7, 8] [100, 101, 102, 103] 0 0 0).idTest
    = [100] := by decide

example :
    (train_test_split (fun _ n => List.range n) 42
      [10, 20, 30, 40] [5, 6, 7, 8] [100, 101, 102, 103] 0 0 0).xTrain
    = [20, 30, 40] := by decide

/-- C9: for input triples of one common length `n`, each split call
returns six sequences whose train and test parts have lengths summing to
`n` for each of the three inputs, and at every position of the train
(respectively test) outputs the bag, label and molecule id originate from
one common index of the inputs. -/
theorem train_test_split_preserves_correspondence
    {α β γ : Type} (rng : Nat → Nat → List Nat) (randomState : Nat)
    (bags : List α) (labels : List β) (molid : List γ)
    (da : α) (db : β) (dc : γ) (n : Nat)
    (hb : bags.length = n) (hl : labels.length = n) (hm : molid.length = n)
    (hp : (rng randomState n).Perm (List.range n))
    (r : SplitResult α β γ)
    (hr : r = train_test_split rng randomState bags labels molid da db dc) :
    (r.xTrain.length + r.xTest.length = n ∧
     r.yTrain.length + r.yTest.length = n ∧
     r.idTrain.length + r.idTest.length = n) ∧
    (∀ k, k < r.xTrain.length →
      ∃ j, j < n ∧ r.xTrain.getD k da = bags.getD j da ∧
        r.yTrain.getD k db = labels.getD j db ∧
        r.idTrain.getD k dc = molid.getD j dc) ∧
    (∀ k, k < r.xTest.length →
      ∃ j, j < n ∧ r.xTest.getD k da = bags.getD j da ∧
        r.yTest.getD k db = labels.getD j db ∧
        r.idTest.getD k dc = molid.getD j dc) := by
  subst hr
  subst hb
  have hlen : (rng randomState bags.length).length = bags.length := by
    simpa using hp.length_eq
  have hle := nTestOf_le bags.length
  have htr_len : (splitTrainIdx rng randomState bags.length).length
      = bags.length - nTestOf bags.length := by
    simp [splitTrainIdx, hlen]
  have hte_len : (splitTestIdx rng randomState bags.length).length
      = nTestOf bags.length := by
    simp only [splitTestIdx, List.length_take, hlen]
    exact min_eq_left hle
  refine ⟨?_, ?_, ?_⟩
  · simp only [train_test_split, applyIdx_length, htr_len, hte_len]
    omega
  · intro k hk
    rw [show (train_test_split rng randomState bags labels molid da db dc).xTrain
        = applyIdx (splitTrainIdx rng randomState bags.length) bags da from rfl,
      applyIdx_length] at hk
    refine ⟨(splitTrainIdx rng randomState bags.length).getD k 0, ?_, ?_, ?_, ?_⟩
    · refine splitTrainIdx_mem_lt rng randomState bags.length hp _ ?_
      rw [List.getD_eq_getElem _ _ hk]
      exact List.getElem_mem hk
    · exact applyIdx_getD _ bags da k hk
    · exact applyIdx_getD _ labels db k hk
    · exact applyIdx_getD _ molid dc k hk
  · intro k hk
    rw [show (train_test_split rng randomState bags labels molid da db dc).xTest
        = applyIdx (splitTestIdx rng randomState bags.length) bags da from rfl,
      applyIdx_length] at hk
    refine ⟨(splitTestIdx rng randomState bags.length).getD k 0, ?_, ?_, ?_, ?_⟩
    · refine splitTestIdx_mem_lt rng randomState bags.length hp _ ?_
      rw [List.getD_eq_getElem _ _ hk]
      exact List.getElem_mem hk
    · exact applyIdx_getD _ bags da k hk
    · exact applyIdx_getD _ labels db k hk
    · exact applyIdx_getD _ molid dc k hk

/-- Identity permutation generator used to witness the split theorems. -/
def idPerm : Nat → Nat → List Nat := fun _ n => List.range n

/-- Concrete four-row split used in the correspondence witness. -/
def witnessSplit : SplitResult Nat Nat Nat :=
  train_test_split idPerm 42 [10, 20, 30, 40] [5, 6, 7, 8] [100, 101, 102, 103] 0 0 0

/-- Witness for the split correspondence theorem at a concrete four-row
input. -/
theorem train_test_split_preserves_correspondence_witness :
    (idPerm 42 4).Perm (List.range 4) ∧
    witnessSplit = train_test_split idPerm 42 [10, 20, 30, 40] [5, 6, 7, 8]
      [100, 101, 102, 103] 0 0 0 ∧
    ((witnessSplit.xTrain.length + witnessSplit.xTest.length = 4 ∧
      witnessSplit.yTrain.length + witnessSplit.yTest.length = 4 ∧
      witnessSplit.idTrain.length + witnessSplit.idTest.length = 4) ∧
     (∀ k, k < witnessSplit.xTrain.length →
       ∃ j, j < 4 ∧
         witnessSplit.xTrain.getD k 0 = ([10, 20, 30, 40] : List Nat).getD j 0 ∧
         witnessSplit.yTrain.getD k 0 = ([5, 6, 7, 8] : List Nat).getD j 0 ∧
         witnessSplit.idTrain.getD k 0 = ([100, 101, 102, 103] : List Nat).getD j 0) ∧
     (∀ k, k < witnessSplit.xTest.length →
       ∃ j, j < 4 ∧
         witnessSplit.xTest.getD k 0 = ([10, 20, 30, 40] : List Nat).getD j 0 ∧
         witnessSplit.yTest.getD k 0 = ([5, 6, 7, 8] : List Nat).getD j 0 ∧
         witnessSplit.idTest.getD k 0 = ([100, 101, 102, 103] : List Nat).getD j 0)) :=
  ⟨List.Perm.refl _, rfl,
   train_test_split_preserves_correspondence idPerm 42 [10, 20, 30, 40] [5, 6, 7, 8]
     [100, 101, 102, 103] 0 0 0 4 rfl rfl rfl (List.Perm.refl _) witnessSplit rfl⟩

/-- C10: with `random_state` fixed (at 42, as in both notebook calls) the
index selection of the split is a function of the row count alone: for
any two input triples of one common length the train and test rows are
drawn from one and the same index list, so equal molecule-id columns are
split identically — in particular the 100-conformation and the
single-conformation pipeline put each molecule position on the same side
of the split.  The last conjunct records that both split events of the
notebook trace fix `random_state=42`. -/
theorem train_test_split_deterministic_in_seed
    {A B C D E : Type} (rng : Nat → Nat → List Nat)
    (bags₁ : List A) (labels₁ : List B) (bags₂ : List C) (labels₂ : List D)
    (molid₁ molid₂ : List E) (da₁ : A) (db₁ : B) (da₂ : C) (db₂ : D) (dc : E)
    (n : Nat) (h₁ : bags₁.length = n) (h₂ : bags₂.length = n) :
    (train_test_split rng 42 bags₁ labels₁ molid₁ da₁ db₁ dc).idTrain
        = applyIdx (splitTrainIdx rng 42 n) molid₁ dc ∧
    (train_test_split rng 42 bags₂ labels₂ molid₂ da₂ db₂ dc).idTrain
        = applyIdx (splitTrainIdx rng 42 n) molid₂ dc ∧
    (train_test_split rng 42 bags₁ labels₁ molid₁ da₁ db₁ dc).idTest
        = applyIdx (splitTestIdx rng 42 n) molid₁ dc ∧
    (train_test_split rng 42 bags₂ labels₂ molid₂ da₂ db₂ dc).idTest
        = applyIdx (splitTestIdx rng 42 n) molid₂ dc ∧
    (molid₁ = molid₂ →
      (train_test_split rng 42 bags₁ labels₁ molid₁ da₁ db₁ dc).idTrain
          = (train_test_split rng 42 bags₂ labels₂ molid₂ da₂ db₂ dc).idTrain ∧
      (train_test_split rng 42 bags₁ labels₁ molid₁ da₁ db₁ dc).idTest
          = (train_test_split rng 42 bags₂ labels₂ molid₂ da₂ db₂ dc).idTest) ∧
    ((runNotebook []).1.all fun e =>
      match e with
      | .trainTestSplit _ _ _ _ randomState => randomState == 42
      | _ => true) = true := by
  subst h₁
  refine ⟨rfl, ?_, rfl, ?_, ?_, by decide⟩
  · simp only [train_test_split, h₂]
  · simp only [train_test_split, h₂]
  · intro h
    subst h
    exact ⟨by simp only [train_test_split, h₂], by simp only [train_test_split, h₂]⟩

/-- Witness for the split determinism theorem: two length-2 triples with
different bag and label data but the same molecule ids. -/
theorem train_test_split_deterministic_in_seed_witness :
    (([1, 2] : List Nat).length = 2) ∧ (([9, 8] : List Nat).length = 2) ∧
    ((train_test_split idPerm 42 [1, 2] [3, 4] ["a", "b"] 0 0 "z").idTrain
        = applyIdx (splitTrainIdx idPerm 42 2) ["a", "b"] "z" ∧
     (train_test_split idPerm 42 [9, 8] [7, 6] ["a", "b"] 0 0 "z").idTrain
        = applyIdx (splitTrainIdx idPerm 42 2) ["a", "b"] "z" ∧
     (train_test_split idPerm 42 [1, 2] [3, 4] ["a", "b"] 0 0 "z").idTest
        = applyIdx (splitTestIdx idPerm 42 2) ["a", "b"] "z" ∧
     (train_test_split idPerm 42 [9, 8] [7, 6] ["a", "b"] 0 0 "z").idTest
        = applyIdx (splitTestIdx idPerm 42 2) ["a", "b"] "z" ∧
     ((["a", "b"] : List String) = ["a", "b"] →
       (train_test_split idPerm 42 [1, 2] [3, 4] ["a", "b"] 0 0 "z").idTrain
           = (train_test_split idPerm 42 [9, 8] [7, 6] ["a", "b"] 0 0 "z").idTrain ∧
       (train_test_split idPerm 42 [1, 2] [3, 4] ["a", "b"] 0 0 "z").idTest
           = (train_test_split idPerm 42 [9, 8] [7, 6] ["a", "b"] 0 0 "z").idTest) ∧
     ((runNotebook []).1.all fun e =>
       match e with
       | .trainTestSplit _ _ _ _ randomState => randomState == 42
       | _ => true) = true) :=
  ⟨rfl, rfl,
   train_test_split_deterministic_in_seed idPerm [1, 2] [3, 4] [9, 8] [7, 6]
     ["a", "b"] ["a", "b"] 0 0 0 0 "z" 2 rfl rfl⟩

/-! ## Trace predicates -/

/-- A `calc_3d_pmapper` call of pipeline `r` on the chosen dataset with
`nc` conformations. -/
def isCalcRun (r nc : Nat) : Event → Bool
  | .calcDescriptors f c _ _ _ run => f == datasetFile && c == nc && run == r
  | _ => false

/-- The `train_test_split` call of pipeline `r`. -/
def isSplitRun (r : Nat) : Event → Bool
  | .trainTestSplit run _ _ _ _ => run == r
  | _ => false

/-- The `scale_descriptors` call of pipeline `r`. -/
def isScaleRun (r : Nat) : Event → Bool
  | .scaleDescriptors run _ _ => run == r
  | _ => false

/-- The construction of estimator instance `i`. -/
def isInstantiateEst (i : Nat) : Event → Bool
  | .instantiate est _ => est == i
  | _ => false

/-- A `fit` call on estimator instance `i`. -/
def isFitEst (i : Nat) : Event → Bool
  | .fit est _ _ => est == i
  | _ => false

/-- A `predict` call on estimator instance `i`. -/
def isPredictEst (i : Nat) : Event → Bool
  | .predict est _ _ => est == i
  | _ => false

/-- A printed evaluation-metric line whose value was computed from the
predictions of estimator instance `i`. -/
def isMetricPrintFor (i : Nat) : Event → Bool
  | .printMetric _ _ _ yPred _ => yPred == DataRef.preds i
  | _ => false

/-- Any printed evaluation-metric line. -/
def isMetricPrint : Event → Bool
  | .printMetric _ _ _ _ _ => true
  | _ => false

/-- Any `calc_3d_pmapper` invocation. -/
def isCalcDescriptorsEvent : Event → Bool
  | .calcDescriptors _ _ _ _ _ _ => true
  | _ => false

/-- C1: on a run that starts without a `descriptors` folder the notebook
completes without error and, for each pipeline and each estimator it
builds, the trace contains — in this order — the descriptor calculation
on `datasets/CHEMBL1075104.smi`, the train/test split, the descriptor
scaling, the estimator construction, its fit and the printed evaluation
metric; no step occurs before the ones it depends on. -/
theorem notebook_pipeline_order :
    (runNotebook []).2 = none ∧
    matchesInOrder (runNotebook []).1
      [isCalcRun 0 100, isSplitRun 0, isScaleRun 0,
       isInstantiateEst 0, isFitEst 0, isMetricPrintFor 0] = true ∧
    matchesInOrder (runNotebook []).1
      [isCalcRun 0 100, isSplitRun 0, isScaleRun 0,
       isInstantiateEst 1, isFitEst 1, isMetricPrintFor 1] = true ∧
    matchesInOrder (runNotebook []).1
      [isCalcRun 1 1, isSplitRun 1, isScaleRun 1,
       isInstantiateEst 2, isFitEst 2, isMetricPrintFor 2] = true := by
  decide

/-- C4: each of the three fitted estimators yields exactly one printed
metric line; every metric line reports `r2_score` of the test labels of
its pipeline against the test-set predictions, formatted to two decimal
places; every prediction is computed on the scaled test bags; and no
metric line refers to training data. -/
theorem one_metric_line_per_estimator :
    (runNotebook []).1.countP (isMetricPrintFor 0) = 1 ∧
    (runNotebook []).1.countP (isMetricPrintFor 1) = 1 ∧
    (runNotebook []).1.countP (isMetricPrintFor 2) = 1 ∧
    (runNotebook []).1.countP isMetricPrint = 3 ∧
    ((runNotebook []).1.all fun e =>
      match e with
      | .printMetric _ metric yTrue yPred decimals =>
          metric == "r2_score" && decimals == 2 && !yTrue.isTrainSide &&
          ((yPred == DataRef.preds 0 || yPred == DataRef.preds 1) &&
              yTrue == DataRef.yTest 0 ||
            yPred == DataRef.preds 2 && yTrue == DataRef.yTest 1)
      | _ => true) = true ∧
    ((runNotebook []).1.all fun e =>
      match e with
      | .predict _ x _ => x == DataRef.xTest 0 || x == DataRef.xTest 1
      | _ => true) = true := by
  decide

/-- C5: in both pipelines the split precedes the scaling; the split is
applied to the raw bags, labels and molecule ids; the scaling receives
exactly the train and test parts produced by the split; and every fit
and predict call receives only scaled data, never unscaled bags. -/
theorem split_before_scale_and_only_scaled_data_used :
    matchesInOrder (runNotebook []).1 [isSplitRun 0, isScaleRun 0] = true ∧
    matchesInOrder (runNotebook []).1 [isSplitRun 1, isScaleRun 1] = true ∧
    ((runNotebook []).1.all fun e =>
      match e with
      | .trainTestSplit run xs ys ids _ =>
          xs == DataRef.bags run && ys == DataRef.labels run &&
            ids == DataRef.molid run
      | _ => true) = true ∧
    ((runNotebook []).1.all fun e =>
      match e with
      | .scaleDescriptors run xtr xte =>
          xtr == DataRef.xTrainRaw run && xte == DataRef.xTestRaw run
      | _ => true) = true ∧
    ((runNotebook []).1.all fun e =>
      match e with
      | .fit _ x y =>
          !x.isUnscaledBags &&
          (x == DataRef.xTrain 0 && y == DataRef.yTrain 0 ||
            x == DataRef.xTrain 1 && y == DataRef.yTrain 1)
      | .predict _ x _ =>
          !x.isUnscaledBags && (x == DataRef.xTest 0 || x == DataRef.xTest 1)
      | _ => true) = true := by
  decide

/-- C6: the notebook creates exactly three estimator instances — two
`InstanceWrapperMLPRegressor` and one `AttentionNetRegressor` — and each
one is constructed once, fitted exactly once on the scaled training data
of its pipeline, and used in exactly one predict call on the scaled test
data of its pipeline. -/
theorem each_estimator_fit_once_predict_once :
    (runNotebook []).1.countP (isInstantiateEst 0) = 1 ∧
    (runNotebook []).1.countP (isInstantiateEst 1) = 1 ∧
    (runNotebook []).1.countP (isInstantiateEst 2) = 1 ∧
    ((runNotebook []).1.countP fun e =>
      match e with
      | .instantiate _ cls => cls == "InstanceWrapperMLPRegressor"
      | _ => false) = 2 ∧
    ((runNotebook []).1.countP fun e =>
      match e with
      | .instantiate _ cls => cls == "AttentionNetRegressor"
      | _ => false) = 1 ∧
    ((runNotebook []).1.countP fun e =>
      match e with
      | .instantiate _ _ => true
      | _ => false) = 3 ∧
    (runNotebook []).1.countP (isFitEst 0) = 1 ∧
    (runNotebook []).1.countP (isFitEst 1) = 1 ∧
    (runNotebook []).1.countP (isFitEst 2) = 1 ∧
    (runNotebook []).1.countP (isPredictEst 0) = 1 ∧
    (runNotebook []).1.countP (isPredictEst 1) = 1 ∧
    (runNotebook []).1.countP (isPredictEst 2) = 1 ∧
    ((runNotebook []).1.all fun e =>
      match e with
      | .fit est x y =>
          x == DataRef.xTrain (if est == 2 then 1 else 0) &&
            y == DataRef.yTrain (if est == 2 then 1 else 0)
      | .predict est x _ => x == DataRef.xTest (if est == 2 then 1 else 0)
      | _ => true) = true := by
  decide

/-! ## Classification of the trace events for the boundary claims -/

/-- Is the event observable outside the running process?  Directory
creation, descriptor-file generation under `path`, terminal output and
plot rendering are; in-process work (splitting, scaling, fitting,
predicting, weight extraction) is not. -/
def isObservableEffect : Event → Bool
  | .mkdir _ => true
  | .calcDescriptors _ _ _ _ _ _ => true
  | .printLine _ => true
  | .printMetric _ _ _ _ _ => true
  | .plotBar => true
  | _ => false

/-- Is the event a call into the external cheminformatics or
machine-learning libraries (miqsar, sklearn)?  `os.mkdir` is a Python
standard-library call, `print` a builtin and the bar plot a seaborn
visualisation, so none of those qualify. -/
def isChemMLLibraryCall : Event → Bool
  | .calcDescriptors _ _ _ _ _ _ => true
  | .trainTestSplit _ _ _ _ _ => true
  | .scaleDescriptors _ _ _ => true
  | .instantiate _ _ => true
  | .fit _ _ _ => true
  | .predict _ _ _ => true
  | .getInstanceWeights _ _ => true
  | _ => false

/-- Terminal output events. -/
def isStdoutPrint : Event → Bool
  | .printLine _ => true
  | .printMetric _ _ _ _ _ => true
  | _ => false

/-- C3, counterexample: the claim that the program performs no externally
observable effect other than calls into the external cheminformatics and
machine-learning libraries fails on the very first effect of a clean run:
`os.mkdir("descriptors")` is an externally observable file-system effect
performed through the Python standard library, not through those
libraries. -/
theorem mkdir_effect_not_a_library_call :
    Event.mkdir descriptorsFolder ∈ (runNotebook []).1 ∧
    isObservableEffect (Event.mkdir descriptorsFolder) = true ∧
    isChemMLLibraryCall (Event.mkdir descriptorsFolder) = false := by
  decide

/-- C3, amended: on every run, each externally observable effect of the
notebook is a call into the external cheminformatics/machine-learning
libraries, the creation of the `descriptors` directory via `os.mkdir`,
terminal output via `print`, or the seaborn bar plot. -/
theorem observable_effects_classified (fs : List String) :
    ((runNotebook fs).1.all fun e =>
      !isObservableEffect e || isChemMLLibraryCall e ||
        e == Event.mkdir descriptorsFolder || isStdoutPrint e ||
        e == Event.plotBar) = true := by
  unfold runNotebook
  split
  · decide
  · decide

/-- C8: `os.mkdir("descriptors")` is called unconditionally before
`calc_3d_pmapper` (in a clean run the mkdir precedes every descriptor
calculation), so on every run in which a `descriptors` entry already
exists the first cell raises `FileExistsError` and no descriptor
computation takes place. -/
theorem mkdir_raises_when_folder_exists (fs : List String)
    (h : descriptorsFolder ∈ fs) :
    (runNotebook fs).2 = some (PyError.fileExistsError descriptorsFolder) ∧
    (runNotebook fs).1.countP isCalcDescriptorsEvent = 0 ∧
    matchesInOrder (runNotebook []).1
      [fun e => e == Event.mkdir descriptorsFolder, isCalcDescriptorsEvent]
      = true := by
  refine ⟨?_, ?_, by decide⟩ <;> simp [runNotebook, h]

/-- Witness for the `FileExistsError` theorem: a file system that already
contains the `descriptors` entry. -/
theorem mkdir_raises_when_folder_exists_witness :
    descriptorsFolder ∈ ["descriptors"] ∧
    ((runNotebook ["descriptors"]).2
        = some (PyError.fileExistsError descriptorsFolder) ∧
      (runNotebook ["descriptors"]).1.countP isCalcDescriptorsEvent = 0 ∧
      matchesInOrder (runNotebook []).1
        [fun e => e == Event.mkdir descriptorsFolder, isCalcDescriptorsEvent]
        = true) :=
  ⟨by decide, mkdir_raises_when_folder_exists ["descriptors"] (by decide)⟩

/-! ## Syntactic checks on the notebook code -/

/-- Python builtins invoked by the notebook. -/
def pythonBuiltins : List String := ["print", "len", "list", "range"]

/-- Does a `from ... import ...` module belong to the external miqsar or
sklearn packages? -/
def externalPackageOK (m : String) : Bool :=
  ["miqsar.utils", "miqsar.estimators.wrappers",
   "miqsar.estimators.attention_nets", "miqsar.estimators.mi_nets",
   "sklearn.model_selection", "sklearn.metrics"].contains m

/-- The variables holding estimator instances. -/
def estimatorObjects : List String := ["ins_net", "att_net"]

/-- The estimator classes imported from the miqsar companion library. -/
def miqsarEstimatorClasses : List String :=
  ["BagWrapperMLPRegressor", "InstanceWrapperMLPRegressor",
   "AttentionNetRegressor", "BagNetRegressor", "InstanceNetRegressor"]

/-- Every function call goes to an imported symbol or a Python builtin. -/
def calleeOK (imported : List String) : PyExpr → Bool
  | .call f _ => imported.contains f || pythonBuiltins.contains f
  | _ => true

/-- Every model-training, prediction or weight-extraction method call is
made on one of the estimator variables; the remaining method calls are
standard-library path handling (`os`, `os.path`) or plotting (`sns`,
`plot`). -/
def methodCallOK : PyExpr → Bool
  | .methodCall obj m _ =>
      if m == "fit" || m == "predict" || m == "get_instance_weights" then
        estimatorObjects.contains obj
      else
        obj == "os" || obj == "os.path" || obj == "sns" || obj == "plot"
  | _ => true

/-- Every assignment to an estimator variable constructs an instance of a
class imported from the miqsar estimator modules. -/
def estimatorBindingOK : PyStmt → Bool
  | .assign targets rhs =>
      if targets.any (fun t => estimatorObjects.contains t) then
        match rhs with
        | .call c _ => miqsarEstimatorClasses.contains c
        | _ => false
      else true
  | _ => true

/-- Keyword names that would indicate parallelism or concurrency
configuration. -/
def concurrencyKeywords : List String :=
  ["ncpu", "n_jobs", "nproc", "num_workers", "threads"]

/-- The keyword names appearing among the arguments of a call. -/
def callKwKeys (args : List PyExpr) : List String :=
  args.filterMap fun a =>
    match a with
    | .kw k _ => some k
    | _ => none

/-- The only concurrency-related keyword anywhere is `ncpu`, and it is
passed through to `calc_3d_pmapper`. -/
def concurrencyOK : PyExpr → Bool
  | .call f args =>
      (callKwKeys args).all fun k =>
        !concurrencyKeywords.contains k || (k == "ncpu" && f == "calc_3d_pmapper")
  | .methodCall _ _ args =>
      (callKwKeys args).all fun k => !concurrencyKeywords.contains k
  | _ => true

/-- C2: the notebook defines no functions or classes of its own; every
`from ... import` draws from the external miqsar or sklearn packages;
every function call is to an imported symbol or a Python builtin; every
fit/predict/weight-extraction operation is a method call on a variable
bound to an instance of an imported miqsar estimator class; the code is
straight-line (so it implements no scheduler, protocol, storage engine or
concurrency coordination); and the only concurrency-related element is
the `ncpu` keyword passed through to the external `calc_3d_pmapper`. -/
theorem notebook_is_glue_code :
    notebookStatements.all (fun s => !definesFunctionOrClass s) = true ∧
    (importedModules notebookStatements).all externalPackageOK = true ∧
    notebookStatements.all
      (stmtAll (calleeOK (importedNames notebookStatements))) = true ∧
    notebookStatements.all (stmtAll methodCallOK) = true ∧
    notebookStatements.all estimatorBindingOK = true ∧
    notebookStatements.all isStraightLine = true ∧
    notebookStatements.all (stmtAll concurrencyOK) = true := by
  decide

/-- C7: every statement of the notebook is straight-line — no loop, no
branch, no function or class definition — and the embedding of the whole
notebook is a total function: it returns a trace and an optional error on
every initial file-system state. -/
theorem notebook_straight_line_total :
    notebookStatements.all isStraightLine = true ∧
    notebookStatements.all (fun s => !definesFunctionOrClass s) = true ∧
    ∀ fs : List String, ∃ tr err, runNotebook fs = (tr, err) := by
  refine ⟨by decide, by decide, fun fs => ⟨(runNotebook fs).1, (runNotebook fs).2, rfl⟩⟩
